import Mathlib

/-!
Verification of `receptivefield` (TensorFlow backend, `receptivefield/tensorflow.py`).

We shallowly embed the data model and the operations of the source file:
tensors are rational-valued 4D arrays carried together with their static
shape; the TensorFlow graph is an association list from operation names to
the static shape of the operation's first output; the session is modelled
as an abstract evaluator of gradient fetches; the session lifecycle is an
explicit state machine.  The automatic-differentiation engine itself is an
external collaborator and is kept abstract (a parameter `Grad`).
-/

namespace ReceptiveFieldTF

/-- Modelled from the spec: `GridPoint` from `receptivefield.types` (not under
`src/`): `{x, y}` integer coordinates into a feature map's spatial grid. -/
structure GridPoint where
  x : Nat
  y : Nat
deriving DecidableEq, Repr, Inhabited

/-- Modelled from the spec: `ImageShape` from `receptivefield.types` (not under
`src/`): `{height, width, channels}` of the input image. -/
structure ImageShape where
  h : Nat
  w : Nat
  c : Nat
deriving DecidableEq, Repr, Inhabited

/-- Modelled from the spec: `GridShape` from `receptivefield.types` (not under
`src/`): `{n, height, width, channels}`, the static shape of any 4D tensor
`(batch, spatial, spatial, channel)`. -/
structure GridShape where
  n : Nat
  h : Nat
  w : Nat
  c : Nat
deriving DecidableEq, Repr, Inhabited

/-- Modelled from the spec: the "replace field" operation on shapes
(`shape.replace(n=1)` in the source) — derive a variant with the batch
dimension replaced, without mutating the original. -/
def GridShape.replace_n (s : GridShape) (n : Nat) : GridShape :=
  { s with n := n }

/-- Number of entries of a tensor of this shape. -/
def GridShape.size (s : GridShape) : Nat :=
  s.n * s.h * s.w * s.c

/-- A concrete 4D array (a `np.ndarray` of rank 4): a static shape plus an
entry function indexed `(batch, y, x, channel)`.  Entries outside the shape
are irrelevant; all constructors below define them as `0`. -/
structure Tensor4 where
  shape : GridShape
  data : Nat → Nat → Nat → Nat → ℚ

instance : Inhabited Tensor4 := ⟨⟨default, fun _ _ _ _ => 0⟩⟩

/-- `np.zeros(shape=s)`. -/
def np_zeros (s : GridShape) : Tensor4 :=
  { shape := s, data := fun _ _ _ _ => 0 }

/-- The slice assignment `arr[:, y, x, 0] = v` of the source: set value `v`
at spatial coordinate `(y, x)`, channel `0`, for every batch index. -/
def set_impulse (t : Tensor4) (y x : Nat) (v : ℚ) : Tensor4 :=
  { shape := t.shape
    data := fun b i j k => if i = y ∧ j = x ∧ k = 0 then v else t.data b i j k }

/-- `tf.reduce_mean(output_tensor, -1, keep_dims=True)`: average the channel
dimension, keeping it as a single channel. -/
def reduce_mean_channels (t : Tensor4) : Tensor4 :=
  { shape := { t.shape with c := 1 }
    data := fun b i j _ =>
      (∑ k ∈ Finset.range t.shape.c, t.data b i j k) / (t.shape.c : ℚ) }

/-- Elementwise product `x * mask` (operands already have the same
`(n, h, w, 1)` shape in the source, so no broadcasting is needed). -/
def tensor_mul (a b : Tensor4) : Tensor4 :=
  { shape := a.shape
    data := fun bi i j k => a.data bi i j k * b.data bi i j k }

/-- `tf.reduce_mean(t)` with no axis: the mean over every entry of `t`. -/
def reduce_mean_all (t : Tensor4) : ℚ :=
  (∑ b ∈ Finset.range t.shape.n, ∑ i ∈ Finset.range t.shape.h,
     ∑ j ∈ Finset.range t.shape.w, ∑ k ∈ Finset.range t.shape.c,
       t.data b i j k) / (t.shape.size : ℚ)

/-- The scalar `fake_loss` built by `_define_fm_gradient` (lines 40–42 of the
source): `x = reduce_mean(output, -1, keep_dims=True)`, then
`fake_loss = x * mask`, then `fake_loss = reduce_mean(fake_loss)`. -/
def fake_loss (output_tensor receptive_field_mask : Tensor4) : ℚ :=
  let x := reduce_mean_channels output_tensor
  let fl := tensor_mul x receptive_field_mask
  reduce_mean_all fl

/-- `_define_fm_gradient` (lines 26–44): build the scalar `fake_loss` from the
output tensor and the mask, then return `tf.gradients(fake_loss, input)[0]`.
The model function `F` maps the input tensor to the output tensor, and the
automatic-differentiation engine is the abstract capability `Grad`, which
takes a scalar function of the input and a point and returns the gradient
tensor at that point. -/
def define_fm_gradient (Grad : (Tensor4 → ℚ) → Tensor4 → Tensor4)
    (F : Tensor4 → Tensor4) (receptive_field_mask : Tensor4)
    (input_tensor : Tensor4) : Tensor4 :=
  Grad (fun t => fake_loss (F t) receptive_field_mask) input_tensor

/-- Modelled from the spec's words (claim C1): the scalar
`mean( reduce_mean_over_channels(output) * mask )`, written directly as an
explicit sum: average each spatial location's channels, multiply by the
mask's channel-0 value there, and take the mean over the
`n × h × w` single-channel map. -/
def spec_probe_scalar (output mask : Tensor4) : ℚ :=
  (∑ b ∈ Finset.range output.shape.n, ∑ i ∈ Finset.range output.shape.h,
     ∑ j ∈ Finset.range output.shape.w,
       ((∑ k ∈ Finset.range output.shape.c, output.data b i j k)
          / (output.shape.c : ℚ)) * mask.data b i j 0)
    / ((output.shape.n * output.shape.h * output.shape.w : Nat) : ℚ)

/-- The extractor state that `_get_gradient_from_grid_points` (lines 47–75)
reads: the fields `_input_shape`, `_output_shapes` and `_gradient_function`
held by a `TFReceptiveField` / `TFFeatureMapsReceptiveField` instance after
`_prepare_gradient_func`.  (These fields live on the base class
`ReceptiveField`, which is not under `src/`; the spec describes them as the
probe function bound to one fixed `(input_shape, output_shapes)` tuple.) -/
structure EstimatorState where
  input_shape : GridShape
  output_shapes : List GridShape
  gradient_function : List Tensor4 → Tensor4 → List Tensor4

/-- Modelled from the spec: `num_feature_maps` of the base class (not under
`src/`) — one output shape per feature map, so the number of feature maps is
the length of `_output_shapes`. -/
def EstimatorState.num_feature_maps (rf : EstimatorState) : Nat :=
  rf.output_shapes.length

/-- The mask-building loop of `_get_gradient_from_grid_points` (lines 66–71):
for each feature map `fm`, take its batch-1 output shape, allocate
`np.zeros` of it, and write `intensity` at `[:, points[fm].y, points[fm].x, 0]`. -/
def build_masks (rf : EstimatorState) (points : List GridPoint)
    (intensity : ℚ) : List Tensor4 :=
  (List.range rf.num_feature_maps).map (fun fm =>
    let output_shape := (rf.output_shapes.getD fm default).replace_n 1
    let p := points.getD fm default
    set_impulse (np_zeros output_shape) p.y p.x intensity)

/-- `_get_gradient_from_grid_points` (lines 47–75): build the per-feature-map
impulse masks, then call `_gradient_function` on them with the all-zeros
image of shape `_input_shape.replace(n=1)` as the base input. -/
def get_gradient_from_grid_points (rf : EstimatorState)
    (points : List GridPoint) (intensity : ℚ) : List Tensor4 :=
  let input_shape := rf.input_shape.replace_n 1
  let output_feature_maps := build_masks rf points intensity
  rf.gradient_function output_feature_maps (np_zeros input_shape)

/-- A tensor is all-zero when every entry is `0`. -/
def all_zero (t : Tensor4) : Prop :=
  ∀ b i j k, t.data b i j k = 0

/-! ### The graph and `_prepare_gradient_func` -/

/-- The constructed TensorFlow graph, abstracted to what
`_prepare_gradient_func` reads from it: for each operation name, the static
shape of `operation.outputs[0]` (`_get_tensor_shape`).  Per the spec's data
model, every probed tensor is 4D `(batch, spatial, spatial, channel)`. -/
def TFGraph : Type := List (String × GridShape)

/-- `graph.get_operation_by_name(name).outputs[0]` followed by
`_get_tensor_shape`: look the name up in the graph, `none` when no such
operation exists. -/
def resolve (g : TFGraph) (name : String) : Option GridShape :=
  List.lookup name g

/-- Modelled from the spec: the error surfaced by `_prepare_gradient_func`
when a named input/output tensor does not exist in the constructed graph
(`TensorResolutionError`, §7 of the spec; the error class itself is not
under `src/` — the backend lookup `get_operation_by_name` raises, and the
exception propagates out of `_prepare_gradient_func` uncaught). -/
inductive PrepError where
  | tensorResolution : String → PrepError
deriving DecidableEq, Repr

/-- One gradient fetch built by the loop of `_prepare_gradient_func`
(lines 128–144): the resolved output tensor, the `(1, h, w, 1)` shape
recorded for it, and the mask placeholder created with exactly that shape
(`tf.placeholder(tf.float32, shape=output_shape)`). -/
structure GradFetch where
  out_name : String
  out_shape : GridShape
  mask_shape : GridShape
deriving DecidableEq, Repr, Inhabited

/-- The loop body of `TFReceptiveField._prepare_gradient_func` over
`output_tensors` (lines 128–144): resolve each name in order (failing on the
first missing one), record `output_shape = (1, shape[1], shape[2], 1)`, and
create the mask placeholder with that shape. -/
def build_fetches (g : TFGraph) : List String → Except PrepError (List GradFetch)
  | [] => Except.ok []
  | name :: rest =>
    match resolve g name with
    | none => Except.error (PrepError.tensorResolution name)
    | some s =>
      let output_shape : GridShape := ⟨1, s.h, s.w, 1⟩
      match build_fetches g rest with
      | Except.error e => Except.error e
      | Except.ok fs =>
        Except.ok ({ out_name := name, out_shape := s, mask_shape := output_shape } :: fs)

/-- What a successful `_prepare_gradient_func` returns (besides the closure):
the gradient fetches, the resolved input `GridShape`, and the list of output
`GridShape`s. -/
structure PrepareResult where
  fetches : List GradFetch
  input_shape : GridShape
  output_shapes : List GridShape
deriving DecidableEq, Repr

/-- `TFReceptiveField._prepare_gradient_func` (lines 87–164): resolve the
named input tensor, run the output loop, and return
`(gradient_fn, GridShape(*input_shape), [GridShape(*s) for s in output_shapes])`.
The input shape is taken from the graph as resolved; each output shape is
`(1, h, w, 1)`. -/
def tf_prepare_gradient_func (g : TFGraph) (input_tensor : String)
    (output_tensors : List String) : Except PrepError PrepareResult :=
  match resolve g input_tensor with
  | none => Except.error (PrepError.tensorResolution input_tensor)
  | some input_shape =>
    match build_fetches g output_tensors with
    | Except.error e => Except.error e
    | Except.ok fs =>
      Except.ok
        { fetches := fs
          input_shape := input_shape
          output_shapes := fs.map (fun f => f.mask_shape) }

/-- The loop body of `TFFeatureMapsReceptiveField._prepare_gradient_func`
over the feature maps returned by `model_func` (lines 261–275): same shape
recording and placeholder creation, no name resolution. -/
def fm_build_fetches : List GridShape → List GradFetch
  | [] => []
  | s :: rest =>
    { out_name := "", out_shape := s, mask_shape := ⟨1, s.h, s.w, 1⟩ }
      :: fm_build_fetches rest

/-- `TFFeatureMapsReceptiveField._prepare_gradient_func` (lines 224–297): the
input placeholder is created with shape `[1, *input_shape]`, the model
function (abstracted to the static shapes of the feature maps it returns,
as a function of the input placeholder shape) yields the output tensors,
and the same loop records shapes and creates mask placeholders.  This
variant cannot fail to resolve a name. -/
def fm_prepare_gradient_func (model_func : GridShape → List GridShape)
    (input_shape : ImageShape) : PrepareResult :=
  let input_tensor : GridShape := ⟨1, input_shape.h, input_shape.w, input_shape.c⟩
  let feature_maps := model_func input_tensor
  let fs := fm_build_fetches feature_maps
  { fetches := fs
    input_shape := input_tensor
    output_shapes := fs.map (fun f => f.mask_shape) }

/-- The feed dictionary of `gradient_fn` (lines 152–158): one array per mask
placeholder plus the input image. -/
structure Feed where
  masks : List Tensor4
  input_image : Tensor4

/-- The live session, abstracted to its evaluation capability: given a
gradient fetch and the feed, produce the gradient array.  (The numerical
semantics of `session.run` belong to the excluded backend.) -/
structure TFSession where
  eval : GradFetch → Feed → Tensor4

/-- `self._session.run(grads, feed_dict=...)`: one backend evaluation of the
whole fetch list, returning one array per fetch, in fetch order. -/
def session_run (sess : TFSession) (fetches : List GradFetch) (feed : Feed) :
    List Tensor4 :=
  fetches.map (fun f => sess.eval f feed)

/-- The closure `gradient_fn(fm_masks, input_image)` returned by
`_prepare_gradient_func` (both variants, lines 152–158 and 283–291): zip the
masks with their placeholders into the feed, add the input image, and run
every gradient fetch in a single `session.run` call. -/
def gradient_fn (sess : TFSession) (res : PrepareResult)
    (fm_masks : List Tensor4) (input_image : Tensor4) : List Tensor4 :=
  session_run sess res.fetches { masks := fm_masks, input_image := input_image }

/-! ### Session lifecycle

`_prepare_gradient_func` starts with (lines 109–111 / 244–246)

    if self._session is not None:
        tf.reset_default_graph()
        self._session.close()

and later creates the new session (`self._session = tf.Session(graph=graph)`,
lines 149 / 280).  We model sessions by identifiers: `session` is the
`self._session` field (`none` right after `__init__`), `created` the ids of
all sessions this instance ever created, `closed` the ids it has closed. -/

structure LifecycleState where
  session : Option Nat
  next_id : Nat
  created : List Nat
  closed : List Nat
deriving DecidableEq, Repr

/-- The freshly constructed instance: `self._session = None`. -/
def initial_lifecycle : LifecycleState :=
  { session := none, next_id := 0, created := [], closed := [] }

/-- Lines 109–111 / 244–246: close the previously held session, if any. -/
def close_prev (st : LifecycleState) : LifecycleState :=
  match st.session with
  | some s => { st with closed := s :: st.closed }
  | none => st

/-- Lines 149 / 280: `self._session = tf.Session(graph=graph)` — allocate a
fresh session and hold it. -/
def open_new (st : LifecycleState) : LifecycleState :=
  { st with
    session := some st.next_id
    created := st.next_id :: st.created
    next_id := st.next_id + 1 }

/-- The session lifecycle effect of one `_prepare_gradient_func` call:
close the previous session first, then create the new one. -/
def prepare_lifecycle (st : LifecycleState) : LifecycleState :=
  open_new (close_prev st)

/-- The execution resources currently owned and live: created by this
instance and not closed. -/
def live_sessions (st : LifecycleState) : List Nat :=
  st.created.filter (fun s => ¬ s ∈ st.closed)

/-- A session id can be used to run the gradient closure only while it is a
session this instance created and has not closed. -/
def can_run (st : LifecycleState) (s : Nat) : Bool :=
  decide (s ∈ st.created) && !decide (s ∈ st.closed)

/-- Well-formedness of a lifecycle state: created ids are below the
allocation counter, only created sessions are closed, every live session is
the currently held one, and the held session was created. -/
def LifecycleWF (st : LifecycleState) : Prop :=
  (∀ x ∈ st.created, x < st.next_id) ∧
  (∀ x ∈ st.closed, x ∈ st.created) ∧
  (∀ x ∈ live_sessions st, st.session = some x) ∧
  (∀ s, st.session = some s → s ∈ st.created)

/-! ### Concrete instances used as inputs of witnesses and counterexamples -/

/-- An extractor state with two feature maps of shape `(1, 3, 3, 1)` over a
`(1, 5, 5, 3)` input. -/
def rf_two : EstimatorState :=
  { input_shape := ⟨1, 5, 5, 3⟩
    output_shapes := [⟨1, 3, 3, 1⟩, ⟨1, 3, 3, 1⟩]
    gradient_function := fun _ _ => [] }

/-- One probe point per feature map of `rf_two`. -/
def points_two : List GridPoint := [⟨1, 1⟩, ⟨1, 1⟩]

/-- An extractor state with a single feature map. -/
def rf_one : EstimatorState :=
  { input_shape := ⟨1, 4, 4, 3⟩
    output_shapes := [⟨1, 2, 2, 1⟩]
    gradient_function := fun masks _ => masks }

/-- A graph whose input operation has batch dimension `2`: the batch
dimension of the input tensor is read from the graph, not forced. -/
def graph_batch2 : TFGraph :=
  [("input", ⟨2, 4, 4, 3⟩), ("out", ⟨1, 2, 2, 8⟩)]

/-- The prepare result on `graph_batch2`. -/
def res_batch2 : PrepareResult :=
  { fetches := [{ out_name := "out", out_shape := ⟨1, 2, 2, 8⟩, mask_shape := ⟨1, 2, 2, 1⟩ }]
    input_shape := ⟨2, 4, 4, 3⟩
    output_shapes := [⟨1, 2, 2, 1⟩] }

/-- A small well-formed graph with batch-1 input and two feature maps. -/
def graph_ok : TFGraph :=
  [("input", ⟨1, 4, 4, 3⟩), ("fm_a", ⟨1, 2, 2, 8⟩), ("fm_b", ⟨1, 1, 1, 16⟩)]

/-- The prepare result on `graph_ok` with outputs `["fm_a", "fm_b"]`. -/
def res_ok2 : PrepareResult :=
  { fetches :=
      [{ out_name := "fm_a", out_shape := ⟨1, 2, 2, 8⟩, mask_shape := ⟨1, 2, 2, 1⟩ },
       { out_name := "fm_b", out_shape := ⟨1, 1, 1, 16⟩, mask_shape := ⟨1, 1, 1, 1⟩ }]
    input_shape := ⟨1, 4, 4, 3⟩
    output_shapes := [⟨1, 2, 2, 1⟩, ⟨1, 1, 1, 1⟩] }

/-- A constant backend session used to evaluate the gradient closure in the
witnesses. -/
def sess_const : TFSession :=
  { eval := fun _ _ => np_zeros ⟨1, 1, 1, 1⟩ }

/-! ### Helper lemmas -/

lemma fake_loss_eq_spec (output mask : Tensor4) :
    fake_loss output mask = spec_probe_scalar output mask := by
  unfold fake_loss spec_probe_scalar reduce_mean_all tensor_mul reduce_mean_channels
  simp [GridShape.size, GridShape.replace_n, Finset.sum_range_succ]

lemma build_masks_getD (rf : EstimatorState) (points : List GridPoint) (intensity : ℚ)
    (fm : Nat) (h : fm < rf.num_feature_maps) :
    (build_masks rf points intensity).getD fm default =
      set_impulse (np_zeros ((rf.output_shapes.getD fm default).replace_n 1))
        (points.getD fm default).y (points.getD fm default).x intensity := by
  unfold build_masks
  rw [List.getD_eq_getElem?_getD, List.getElem?_map, List.getElem?_range h]
  rfl

lemma build_fetches_ok (g : TFGraph) (names : List String) (fs : List GradFetch)
    (h : build_fetches g names = Except.ok fs) :
    fs.length = names.length ∧
    ∀ i, i < names.length →
      ∃ s, resolve g (names.getD i "") = some s ∧
        fs.getD i default =
          { out_name := names.getD i "", out_shape := s, mask_shape := ⟨1, s.h, s.w, 1⟩ } := by
  induction names generalizing fs with
  | nil =>
    simp only [build_fetches, Except.ok.injEq] at h
    subst h
    exact ⟨rfl, fun i hi => absurd hi (by simp)⟩
  | cons name rest ih =>
    unfold build_fetches at h
    cases hres : resolve g name with
    | none => rw [hres] at h; cases h
    | some s =>
      rw [hres] at h
      cases hrest : build_fetches g rest with
      | error e => rw [hrest] at h; cases h
      | ok fs2 =>
        rw [hrest] at h
        simp only [Except.ok.injEq] at h
        subst h
        obtain ⟨hlen, hidx⟩ := ih fs2 hrest
        refine ⟨by simp [hlen], ?_⟩
        intro i hi
        cases i with
        | zero => exact ⟨s, hres, rfl⟩
        | succ m =>
          simp only [List.getD_cons_succ]
          exact hidx m (by simpa using hi)

lemma build_fetches_error (g : TFGraph) (names : List String)
    (h : ∃ o ∈ names, resolve g o = none) :
    ∃ m, build_fetches g names = Except.error (PrepError.tensorResolution m)
      ∧ resolve g m = none := by
  induction names with
  | nil => simp at h
  | cons name rest ih =>
    cases hres : resolve g name with
    | none => exact ⟨name, by simp [build_fetches, hres], hres⟩
    | some s =>
      obtain ⟨o, ho, hnone⟩ := h
      have ho' : o ∈ rest := by
        rcases List.mem_cons.mp ho with rfl | hm
        · rw [hres] at hnone; cases hnone
        · exact hm
      obtain ⟨m, hm, hmr⟩ := ih ⟨o, ho', hnone⟩
      exact ⟨m, by simp [build_fetches, hres, hm], hmr⟩

lemma build_fetches_mask_shape (g : TFGraph) (names : List String) (fs : List GradFetch)
    (h : build_fetches g names = Except.ok fs) :
    ∀ f ∈ fs, f.mask_shape = ⟨1, f.out_shape.h, f.out_shape.w, 1⟩ := by
  induction names generalizing fs with
  | nil =>
    simp only [build_fetches, Except.ok.injEq] at h
    subst h; simp
  | cons name rest ih =>
    unfold build_fetches at h
    cases hres : resolve g name with
    | none => rw [hres] at h; cases h
    | some s =>
      rw [hres] at h
      cases hrest : build_fetches g rest with
      | error e => rw [hrest] at h; cases h
      | ok fs2 =>
        rw [hrest] at h
        simp only [Except.ok.injEq] at h
        subst h
        intro f hf
        rcases List.mem_cons.mp hf with rfl | hm
        · rfl
        · exact ih fs2 hrest f hm

lemma tf_prepare_ok (g : TFGraph) (iname : String) (onames : List String)
    (res : PrepareResult)
    (h : tf_prepare_gradient_func g iname onames = Except.ok res) :
    resolve g iname = some res.input_shape ∧
    build_fetches g onames = Except.ok res.fetches ∧
    res.output_shapes = res.fetches.map (fun f => f.mask_shape) := by
  unfold tf_prepare_gradient_func at h
  cases hres : resolve g iname with
  | none => rw [hres] at h; cases h
  | some ish =>
    rw [hres] at h
    cases hb : build_fetches g onames with
    | error e => rw [hb] at h; cases h
    | ok fs =>
      rw [hb] at h
      simp only [Except.ok.injEq] at h
      subst h
      exact ⟨rfl, rfl, rfl⟩

lemma fm_build_fetches_length (l : List GridShape) :
    (fm_build_fetches l).length = l.length := by
  induction l with
  | nil => rfl
  | cons s rest ih => simp [fm_build_fetches, ih]

lemma fm_build_fetches_getD (l : List GridShape) (i : Nat) (h : i < l.length) :
    (fm_build_fetches l).getD i default =
      { out_name := ""
        out_shape := l.getD i default
        mask_shape := ⟨1, (l.getD i default).h, (l.getD i default).w, 1⟩ } := by
  induction l generalizing i with
  | nil => simp at h
  | cons s rest ih =>
    cases i with
    | zero => rfl
    | succ m =>
      simp only [fm_build_fetches, List.getD_cons_succ]
      exact ih m (by simpa using h)

lemma fm_build_fetches_mask_shape (l : List GridShape) :
    ∀ f ∈ fm_build_fetches l, f.mask_shape = ⟨1, f.out_shape.h, f.out_shape.w, 1⟩ := by
  induction l with
  | nil => simp [fm_build_fetches]
  | cons s rest ih =>
    intro f hf
    rcases List.mem_cons.mp hf with rfl | hm
    · rfl
    · exact ih f hm

lemma session_run_getD (sess : TFSession) (fetches : List GradFetch) (feed : Feed)
    (i : Nat) (h : i < fetches.length) :
    (session_run sess fetches feed).getD i default
      = sess.eval (fetches.getD i default) feed := by
  induction fetches generalizing i with
  | nil => simp at h
  | cons f rest ih =>
    cases i with
    | zero => rfl
    | succ m =>
      simp only [session_run, List.map_cons, List.getD_cons_succ]
      exact ih m (by simpa using h)

lemma live_close_prev_nil (st : LifecycleState) (hwf : LifecycleWF st) :
    live_sessions (close_prev st) = [] := by
  obtain ⟨-, -, hlive, -⟩ := hwf
  cases hs : st.session with
  | none =>
    have : live_sessions st = [] := by
      rcases hl : live_sessions st with _ | ⟨x, xs⟩
      · rfl
      · have := hlive x (by rw [hl]; exact List.mem_cons_self x xs)
        rw [hs] at this; cases this
    simpa [close_prev, hs, live_sessions] using this
  | some s =>
    simp only [close_prev, hs, live_sessions]
    rcases hl : st.created.filter (fun x => decide (¬ x ∈ s :: st.closed)) with _ | ⟨x, xs⟩
    · rfl
    · exfalso
      have hx : x ∈ st.created.filter (fun x => decide (¬ x ∈ s :: st.closed)) := by
        rw [hl]; exact List.mem_cons_self x xs
      rw [List.mem_filter] at hx
      obtain ⟨hxc, hxd⟩ := hx
      have hnotin : ¬ x ∈ s :: st.closed := by simpa using hxd
      have hxlive : x ∈ live_sessions st := by
        rw [live_sessions, List.mem_filter]
        refine ⟨hxc, by simp; exact fun hmem => hnotin (List.mem_cons_of_mem s hmem)⟩
      have := hlive x hxlive
      rw [hs] at this
      have hxs : x = s := by injection this with h; exact h.symm
      exact hnotin (hxs ▸ List.mem_cons_self s st.closed)

lemma closed_close_prev_subset (st : LifecycleState) :
    ∀ x ∈ st.closed, x ∈ (close_prev st).closed := by
  intro x hx
  cases hs : st.session with
  | none => simpa [close_prev, hs] using hx
  | some s => simp [close_prev, hs]; right; exact hx

lemma closed_prepare_subset (st : LifecycleState) :
    ∀ x ∈ st.closed, x ∈ (prepare_lifecycle st).closed := by
  intro x hx
  simp only [prepare_lifecycle, open_new]
  exact closed_close_prev_subset st x hx

lemma closed_iterate_subset (st : LifecycleState) (k : Nat) :
    ∀ x ∈ st.closed, x ∈ (prepare_lifecycle^[k] st).closed := by
  induction k generalizing st with
  | zero => intro x hx; simpa using hx
  | succ m ih =>
    intro x hx
    rw [Function.iterate_succ_apply]
    exact ih (prepare_lifecycle st) x (closed_prepare_subset st x hx)

lemma created_iterate_subset (st : LifecycleState) (k : Nat) :
    ∀ x ∈ st.created, x ∈ (prepare_lifecycle^[k] st).created := by
  induction k generalizing st with
  | zero => intro x hx; simpa using hx
  | succ m ih =>
    intro x hx
    rw [Function.iterate_succ_apply]
    refine ih (prepare_lifecycle st) x ?_
    simp only [prepare_lifecycle, open_new]
    cases hs : st.session with
    | none => simp [close_prev, hs]; right; exact hx
    | some s => simp [close_prev, hs]; right; exact hx

lemma getD_map_lt {α β : Type} [Inhabited α] [Inhabited β] (f : α → β) (l : List α)
    (i : Nat) (h : i < l.length) :
    (l.map f).getD i default = f (l.getD i default) := by
  induction l generalizing i with
  | nil => simp at h
  | cons a rest ih =>
    cases i with
    | zero => rfl
    | succ m =>
      simp only [List.map_cons, List.getD_cons_succ]
      exact ih m (by simpa using h)

lemma close_prev_created (st : LifecycleState) :
    (close_prev st).created = st.created := by
  cases hs : st.session <;> simp [close_prev, hs]

lemma close_prev_next_id (st : LifecycleState) :
    (close_prev st).next_id = st.next_id := by
  cases hs : st.session <;> simp [close_prev, hs]

lemma closed_close_prev_lt (st : LifecycleState) (hwf : LifecycleWF st) :
    ∀ x ∈ (close_prev st).closed, x < st.next_id := by
  obtain ⟨hlt, hsub, -, hsess⟩ := hwf
  intro x hx
  cases hs : st.session with
  | none =>
    rw [close_prev, hs] at hx
    exact hlt x (hsub x hx)
  | some s =>
    rw [close_prev, hs] at hx
    simp only [List.mem_cons] at hx
    rcases hx with rfl | hx
    · exact hlt x (hsess x hs)
    · exact hlt x (hsub x hx)

lemma live_prepare (st : LifecycleState) (hwf : LifecycleWF st) :
    live_sessions (prepare_lifecycle st) = [st.next_id] := by
  have hnil := live_close_prev_nil st hwf
  have hlt := closed_close_prev_lt st hwf
  have hnotc : ¬ st.next_id ∈ (close_prev st).closed := fun hmem =>
    absurd (hlt _ hmem) (lt_irrefl st.next_id)
  have hfil : st.created.filter (fun x => decide (¬ x ∈ (close_prev st).closed)) = [] := by
    have h2 := hnil
    rw [live_sessions, close_prev_created] at h2
    exact h2
  simp only [prepare_lifecycle, open_new, live_sessions, List.filter_cons,
    close_prev_created, close_prev_next_id]
  rw [if_pos (by simpa using hnotc), hfil]

lemma prepare_wf (st : LifecycleState) (hwf : LifecycleWF st) :
    LifecycleWF (prepare_lifecycle st) := by
  have hlive := live_prepare st hwf
  obtain ⟨hlt, hsub, -, hsess⟩ := hwf
  refine ⟨?_, ?_, ?_, ?_⟩
  · intro x hx
    simp only [prepare_lifecycle, open_new, close_prev_created, close_prev_next_id,
      List.mem_cons] at hx ⊢
    rcases hx with rfl | hx
    · omega
    · have := hlt x hx; omega
  · intro x hx
    simp only [prepare_lifecycle, open_new, close_prev_created] at hx ⊢
    cases hs : st.session with
    | none =>
      rw [close_prev, hs] at hx
      exact List.mem_cons_of_mem _ (hsub x hx)
    | some s =>
      rw [close_prev, hs] at hx
      simp only [List.mem_cons] at hx
      rcases hx with rfl | hx
      · exact List.mem_cons_of_mem _ (hsess x hs)
      · exact List.mem_cons_of_mem _ (hsub x hx)
  · intro x hx
    rw [hlive] at hx
    simp only [List.mem_singleton] at hx
    subst hx
    show some (close_prev st).next_id = some st.next_id
    rw [close_prev_next_id]
  · intro s hs
    simp only [prepare_lifecycle, open_new, Option.some.injEq] at hs
    subst hs
    exact List.mem_cons_self _ _

/-! ### Claims -/

/-- C1: for every input tensor, output feature-map tensor (given by the
model function `F`) and mask tensor, the gradient defined by
`_define_fm_gradient` equals the gradient (the abstract
automatic-differentiation capability `Grad`) with respect to the input
tensor of the scalar `mean( reduce_mean_over_channels(output) * mask )`:
the output is averaged over its channel dimension (keeping the dimension),
multiplied elementwise by the mask, reduced by mean to a scalar, and that
scalar's gradient w.r.t. the input is returned. -/
theorem C1_define_fm_gradient_is_spec_gradient
    (Grad : (Tensor4 → ℚ) → Tensor4 → Tensor4) (F : Tensor4 → Tensor4)
    (receptive_field_mask input_tensor : Tensor4) :
    define_fm_gradient Grad F receptive_field_mask input_tensor
      = Grad (fun t => spec_probe_scalar (F t) receptive_field_mask) input_tensor := by
  unfold define_fm_gradient
  exact congrFun (congrArg Grad (funext fun t => fake_loss_eq_spec (F t) receptive_field_mask))
    input_tensor

/-- C2 counterexample: with two feature maps, `_get_gradient_from_grid_points`
writes an impulse into the mask of every feature map in the same call, so
the mask of feature map 1 is not all-zero — refuting, at
`rf_two` / `points_two` / intensity `1`, the claim that the masks for all
feature maps other than a given one are all-zero. -/
theorem C2_counterexample :
    ¬ all_zero ((build_masks rf_two points_two 1).getD 1 default) := by
  intro h
  have h0 := h 0 1 1 0
  rw [build_masks_getD rf_two points_two 1 1 (by decide)] at h0
  simp [set_impulse, np_zeros, points_two] at h0

/-- C2 (amended): for every list of grid points (one per feature map) and
every intensity, `_get_gradient_from_grid_points` builds one mask per
feature map; the mask of feature map `fm` has that feature map's batch-1
output shape and is all zeros except the given intensity at spatial
coordinate `(y = points[fm].y, x = points[fm].x)` in channel 0.  Every
feature map's mask carries its own impulse in the same call (the masks of
the other feature maps are not all-zero in general). -/
theorem C2_impulse_masks (rf : EstimatorState) (points : List GridPoint)
    (intensity : ℚ) (fm : Nat) (hfm : fm < rf.num_feature_maps) :
    (build_masks rf points intensity).length = rf.num_feature_maps ∧
    ((build_masks rf points intensity).getD fm default).shape
        = (rf.output_shapes.getD fm default).replace_n 1 ∧
    (∀ b i j k,
      ((build_masks rf points intensity).getD fm default).data b i j k
        = if i = (points.getD fm default).y ∧ j = (points.getD fm default).x ∧ k = 0
          then intensity else 0) := by
  refine ⟨by simp [build_masks], ?_, ?_⟩
  · rw [build_masks_getD rf points intensity fm hfm]
    rfl
  · intro b i j k
    rw [build_masks_getD rf points intensity fm hfm]
    rfl

/-- C2 witness: the amended statement evaluated on `rf_two`, `points_two`,
intensity `1`, feature map `0`. -/
theorem C2_impulse_masks_witness :
    (build_masks rf_two points_two 1).length = rf_two.num_feature_maps ∧
    ((build_masks rf_two points_two 1).getD 0 default).shape
        = (rf_two.output_shapes.getD 0 default).replace_n 1 ∧
    ((build_masks rf_two points_two 1).getD 0 default).data 0 1 1 0 = 1 := by
  obtain ⟨h1, h2, h3⟩ := C2_impulse_masks rf_two points_two 1 0 (by decide)
  refine ⟨h1, h2, ?_⟩
  have h4 := h3 0 1 1 0
  simpa [points_two] using h4

/-- C8: for a fixed estimator state (equal input shape, output shapes and
gradient function) and equal point lists and intensity, the probing step of
`_get_gradient_from_grid_points` produces equal mask arguments, equal
base-input arguments, and equal results — it introduces no randomness of
its own. -/
theorem C8_probe_deterministic (rf1 rf2 : EstimatorState)
    (pts1 pts2 : List GridPoint) (int1 int2 : ℚ)
    (hin : rf1.input_shape = rf2.input_shape)
    (hout : rf1.output_shapes = rf2.output_shapes)
    (hgrad : rf1.gradient_function = rf2.gradient_function)
    (hpts : pts1 = pts2) (hint : int1 = int2) :
    build_masks rf1 pts1 int1 = build_masks rf2 pts2 int2 ∧
    np_zeros (rf1.input_shape.replace_n 1) = np_zeros (rf2.input_shape.replace_n 1) ∧
    get_gradient_from_grid_points rf1 pts1 int1
      = get_gradient_from_grid_points rf2 pts2 int2 := by
  cases rf1
  cases rf2
  cases hin
  cases hout
  cases hgrad
  cases hpts
  cases hint
  exact ⟨rfl, rfl, rfl⟩

/-- C8 witness: the determinism statement evaluated on two structurally
equal copies of `rf_one`. -/
theorem C8_probe_deterministic_witness :
    build_masks rf_one [⟨0, 0⟩] 1 = build_masks rf_one [⟨0, 0⟩] 1 ∧
    np_zeros (rf_one.input_shape.replace_n 1) = np_zeros (rf_one.input_shape.replace_n 1) ∧
    get_gradient_from_grid_points rf_one [⟨0, 0⟩] 1
      = get_gradient_from_grid_points rf_one [⟨0, 0⟩] 1 :=
  C8_probe_deterministic rf_one rf_one [⟨0, 0⟩] [⟨0, 0⟩] 1 1 rfl rfl rfl rfl rfl

/-- C9: every probe evaluation of `_get_gradient_from_grid_points` passes the
all-zeros image of shape `input_shape.replace(n=1)` as the base input to the
gradient function — the gradients are taken at the zero input image. -/
theorem C9_zero_base_input (rf : EstimatorState) (points : List GridPoint)
    (intensity : ℚ) :
    get_gradient_from_grid_points rf points intensity
      = rf.gradient_function (build_masks rf points intensity)
          (np_zeros (rf.input_shape.replace_n 1)) ∧
    (np_zeros (rf.input_shape.replace_n 1)).shape = rf.input_shape.replace_n 1 ∧
    all_zero (np_zeros (rf.input_shape.replace_n 1)) :=
  ⟨rfl, rfl, fun _ _ _ _ => rfl⟩

/-- C3 counterexample: on `graph_batch2`, whose input operation has static
batch dimension 2, `TFReceptiveField._prepare_gradient_func` succeeds and
returns an input `GridShape` with `n = 2` — refuting the claim that every
successful call returns an input `GridShape` with leading dimension 1. -/
theorem C3_counterexample :
    ¬ (∀ res : PrepareResult,
          tf_prepare_gradient_func graph_batch2 "input" ["out"] = Except.ok res →
          res.input_shape.n = 1 ∧ ∀ s ∈ res.output_shapes, s.n = 1) := by
  intro h
  have h2 := (h res_batch2 rfl).1
  exact absurd h2 (by decide)

/-- C3 (amended): every output `GridShape` returned by
`_prepare_gradient_func` has leading (batch) dimension 1, in both
`TFReceptiveField` and `TFFeatureMapsReceptiveField`; the input `GridShape`
has leading dimension 1 in `TFFeatureMapsReceptiveField` (the input
placeholder is created with shape `[1, *input_shape]`), while in
`TFReceptiveField` the input `GridShape` is the named input tensor's static
shape taken from the graph unchanged — its batch dimension is not forced
to 1. -/
theorem C3_batch_dimensions :
    (∀ (g : TFGraph) (input_tensor : String) (output_tensors : List String)
        (res : PrepareResult),
        tf_prepare_gradient_func g input_tensor output_tensors = Except.ok res →
        (∀ s ∈ res.output_shapes, s.n = 1) ∧
        resolve g input_tensor = some res.input_shape) ∧
    (∀ (model_func : GridShape → List GridShape) (input_shape : ImageShape),
        (∀ s ∈ (fm_prepare_gradient_func model_func input_shape).output_shapes, s.n = 1) ∧
        (fm_prepare_gradient_func model_func input_shape).input_shape.n = 1) := by
  constructor
  · intro g iname onames res h
    obtain ⟨hres, hb, hout⟩ := tf_prepare_ok g iname onames res h
    refine ⟨?_, hres⟩
    intro s hs
    rw [hout] at hs
    obtain ⟨f, hf, rfl⟩ := List.mem_map.mp hs
    rw [build_fetches_mask_shape g onames res.fetches hb f hf]
  · intro model ish
    constructor
    · intro s hs
      have hs2 : s ∈ (fm_build_fetches (model ⟨1, ish.h, ish.w, ish.c⟩)).map
          (fun f => f.mask_shape) := hs
      obtain ⟨f, hf, rfl⟩ := List.mem_map.mp hs2
      rw [fm_build_fetches_mask_shape _ f hf]
    · rfl

/-- C3 witness: the amended statement evaluated on `graph_batch2` (outputs
forced to batch 1, input read from the graph) and on a concrete feature-maps
model. -/
theorem C3_batch_dimensions_witness :
    ((∀ s ∈ res_batch2.output_shapes, s.n = 1) ∧
      resolve graph_batch2 "input" = some res_batch2.input_shape) ∧
    ((∀ s ∈ (fm_prepare_gradient_func (fun t => [⟨t.n, 2, 2, 8⟩]) ⟨4, 4, 3⟩).output_shapes,
        s.n = 1) ∧
      (fm_prepare_gradient_func (fun t => [⟨t.n, 2, 2, 8⟩]) ⟨4, 4, 3⟩).input_shape.n = 1) :=
  ⟨C3_batch_dimensions.1 graph_batch2 "input" ["out"] res_batch2 rfl,
   C3_batch_dimensions.2 (fun t => [⟨t.n, 2, 2, 8⟩]) ⟨4, 4, 3⟩⟩

/-- C4: when the named input tensor or one of the named output tensors does
not exist in the constructed graph, `TFReceptiveField._prepare_gradient_func`
fails with a tensor-resolution error and returns no gradient function. -/
theorem C4_missing_tensor_raises (g : TFGraph) (input_tensor : String)
    (output_tensors : List String)
    (h : resolve g input_tensor = none ∨ ∃ o ∈ output_tensors, resolve g o = none) :
    (∃ missing, tf_prepare_gradient_func g input_tensor output_tensors
        = Except.error (PrepError.tensorResolution missing)) ∧
    (∀ res, tf_prepare_gradient_func g input_tensor output_tensors ≠ Except.ok res) := by
  have hmain : ∃ missing, tf_prepare_gradient_func g input_tensor output_tensors
      = Except.error (PrepError.tensorResolution missing) := by
    rcases h with hin | hout
    · exact ⟨input_tensor, by simp [tf_prepare_gradient_func, hin]⟩
    · cases hres : resolve g input_tensor with
      | none => exact ⟨input_tensor, by simp [tf_prepare_gradient_func, hres]⟩
      | some s =>
        obtain ⟨m, hm, -⟩ := build_fetches_error g output_tensors hout
        exact ⟨m, by simp [tf_prepare_gradient_func, hres, hm]⟩
  obtain ⟨m, hm⟩ := hmain
  refine ⟨⟨m, hm⟩, fun res hok => ?_⟩
  rw [hm] at hok
  cases hok

/-- C4 witness: on `graph_ok`, requesting the output list
`["fm_a", "absent"]` fails with a tensor-resolution error. -/
theorem C4_missing_tensor_raises_witness :
    (∃ missing, tf_prepare_gradient_func graph_ok "input" ["fm_a", "absent"]
        = Except.error (PrepError.tensorResolution missing)) ∧
    (∀ res, tf_prepare_gradient_func graph_ok "input" ["fm_a", "absent"]
        ≠ Except.ok res) :=
  C4_missing_tensor_raises graph_ok "input" ["fm_a", "absent"]
    (Or.inr ⟨"absent", by decide, by decide⟩)

/-- C5: a successful `_prepare_gradient_func` with `k` output tensors
returns `k` output shapes positionally aligned with the supplied output
tensors, and the returned gradient function, given `k` masks, returns the
`k` gradient images in the same output order via a single `session.run`
evaluation of the whole fetch list.  Both variants. -/
theorem C5_positional_alignment :
    (∀ (g : TFGraph) (input_tensor : String) (output_tensors : List String)
        (res : PrepareResult),
        tf_prepare_gradient_func g input_tensor output_tensors = Except.ok res →
        res.output_shapes.length = output_tensors.length ∧
        (∀ i, i < output_tensors.length →
          ∃ s, resolve g (output_tensors.getD i "") = some s ∧
            res.output_shapes.getD i default = ⟨1, s.h, s.w, 1⟩) ∧
        (∀ (sess : TFSession) (fm_masks : List Tensor4) (input_image : Tensor4),
          gradient_fn sess res fm_masks input_image
            = session_run sess res.fetches
                { masks := fm_masks, input_image := input_image } ∧
          (gradient_fn sess res fm_masks input_image).length = output_tensors.length ∧
          ∀ i, i < output_tensors.length →
            (gradient_fn sess res fm_masks input_image).getD i default
              = sess.eval (res.fetches.getD i default)
                  { masks := fm_masks, input_image := input_image })) ∧
    (∀ (model_func : GridShape → List GridShape) (input_shape : ImageShape),
        (fm_prepare_gradient_func model_func input_shape).output_shapes.length
          = (model_func ⟨1, input_shape.h, input_shape.w, input_shape.c⟩).length ∧
        (∀ i, i < (model_func ⟨1, input_shape.h, input_shape.w, input_shape.c⟩).length →
          (fm_prepare_gradient_func model_func input_shape).output_shapes.getD i default
            = ⟨1, ((model_func ⟨1, input_shape.h, input_shape.w, input_shape.c⟩).getD
                    i default).h,
                 ((model_func ⟨1, input_shape.h, input_shape.w, input_shape.c⟩).getD
                    i default).w, 1⟩) ∧
        (∀ (sess : TFSession) (fm_masks : List Tensor4) (input_image : Tensor4),
          gradient_fn sess (fm_prepare_gradient_func model_func input_shape)
              fm_masks input_image
            = session_run sess (fm_prepare_gradient_func model_func input_shape).fetches
                { masks := fm_masks, input_image := input_image } ∧
          (gradient_fn sess (fm_prepare_gradient_func model_func input_shape)
              fm_masks input_image).length
            = (model_func ⟨1, input_shape.h, input_shape.w, input_shape.c⟩).length ∧
          ∀ i, i < (model_func ⟨1, input_shape.h, input_shape.w, input_shape.c⟩).length →
            (gradient_fn sess (fm_prepare_gradient_func model_func input_shape)
                fm_masks input_image).getD i default
              = sess.eval
                  ((fm_prepare_gradient_func model_func input_shape).fetches.getD i default)
                  { masks := fm_masks, input_image := input_image })) := by
  constructor
  · intro g iname onames res h
    obtain ⟨hres, hb, hout⟩ := tf_prepare_ok g iname onames res h
    obtain ⟨hlen, hidx⟩ := build_fetches_ok g onames res.fetches hb
    have houtlen : res.output_shapes.length = onames.length := by
      rw [hout, List.length_map, hlen]
    refine ⟨houtlen, ?_, ?_⟩
    · intro i hi
      obtain ⟨s, hsres, hgi⟩ := hidx i hi
      refine ⟨s, hsres, ?_⟩
      rw [hout, getD_map_lt _ _ i (by rw [hlen]; exact hi), hgi]
    · intro sess fm_masks input_image
      refine ⟨rfl, ?_, ?_⟩
      · show (res.fetches.map _).length = onames.length
        rw [List.length_map, hlen]
      · intro i hi
        exact session_run_getD sess res.fetches _ i (by rw [hlen]; exact hi)
  · intro model ish
    have hflen : (fm_build_fetches (model ⟨1, ish.h, ish.w, ish.c⟩)).length
        = (model ⟨1, ish.h, ish.w, ish.c⟩).length := fm_build_fetches_length _
    refine ⟨?_, ?_, ?_⟩
    · show ((fm_build_fetches (model ⟨1, ish.h, ish.w, ish.c⟩)).map _).length = _
      rw [List.length_map, hflen]
    · intro i hi
      show ((fm_build_fetches (model ⟨1, ish.h, ish.w, ish.c⟩)).map _).getD i default = _
      rw [getD_map_lt _ _ i (by rw [hflen]; exact hi),
        fm_build_fetches_getD _ i hi]
    · intro sess fm_masks input_image
      refine ⟨rfl, ?_, ?_⟩
      · show ((fm_build_fetches (model ⟨1, ish.h, ish.w, ish.c⟩)).map _).length = _
        rw [List.length_map, hflen]
      · intro i hi
        exact session_run_getD sess (fm_build_fetches (model ⟨1, ish.h, ish.w, ish.c⟩))
          _ i (by rw [hflen]; exact hi)

/-- C5 witness: the alignment statement evaluated on `graph_ok` with the two
output tensors `["fm_a", "fm_b"]` and the constant backend session, and on a
concrete feature-maps model, including the per-index facts at index 0. -/
theorem C5_positional_alignment_witness :
    res_ok2.output_shapes.length = 2 ∧
    (gradient_fn sess_const res_ok2 [] (np_zeros ⟨1, 4, 4, 3⟩)).length = 2 ∧
    (fm_prepare_gradient_func (fun _ => [⟨1, 3, 5, 8⟩]) ⟨4, 4, 3⟩).output_shapes.getD
        0 default = ⟨1, 3, 5, 1⟩ ∧
    (gradient_fn sess_const (fm_prepare_gradient_func (fun _ => [⟨1, 3, 5, 8⟩]) ⟨4, 4, 3⟩)
        [] (np_zeros ⟨1, 4, 4, 3⟩)).getD 0 default
      = sess_const.eval
          ((fm_prepare_gradient_func (fun _ => [⟨1, 3, 5, 8⟩]) ⟨4, 4, 3⟩).fetches.getD
            0 default)
          { masks := [], input_image := np_zeros ⟨1, 4, 4, 3⟩ } := by
  obtain ⟨h1, -, h3⟩ :=
    C5_positional_alignment.1 graph_ok "input" ["fm_a", "fm_b"] res_ok2 rfl
  obtain ⟨-, hfm2, hfm3⟩ :=
    C5_positional_alignment.2 (fun _ => [⟨1, 3, 5, 8⟩]) ⟨4, 4, 3⟩
  exact ⟨h1, (h3 sess_const [] (np_zeros ⟨1, 4, 4, 3⟩)).2.1,
    hfm2 0 (by decide),
    (hfm3 sess_const [] (np_zeros ⟨1, 4, 4, 3⟩)).2.2 0 (by decide)⟩

/-- C7: for every output tensor with static shape `(n, h, w, c)`, the
resolved output shape recorded by `_prepare_gradient_func` is exactly
`(1, h, w, 1)` — spatial dimensions taken from the tensor, batch and channel
dimensions forced to 1 — and the mask placeholder created for that feature
map has exactly this shape.  Both variants. -/
theorem C7_output_shape_forced :
    (∀ (g : TFGraph) (input_tensor : String) (output_tensors : List String)
        (res : PrepareResult) (i : Nat) (s : GridShape),
        tf_prepare_gradient_func g input_tensor output_tensors = Except.ok res →
        i < output_tensors.length →
        resolve g (output_tensors.getD i "") = some s →
        res.output_shapes.getD i default = ⟨1, s.h, s.w, 1⟩ ∧
        (res.fetches.getD i default).mask_shape = ⟨1, s.h, s.w, 1⟩ ∧
        (res.fetches.getD i default).mask_shape = res.output_shapes.getD i default) ∧
    (∀ (model_func : GridShape → List GridShape) (input_shape : ImageShape) (i : Nat),
        i < (model_func ⟨1, input_shape.h, input_shape.w, input_shape.c⟩).length →
        (fm_prepare_gradient_func model_func input_shape).output_shapes.getD i default
          = ⟨1, ((model_func ⟨1, input_shape.h, input_shape.w, input_shape.c⟩).getD
                  i default).h,
               ((model_func ⟨1, input_shape.h, input_shape.w, input_shape.c⟩).getD
                  i default).w, 1⟩ ∧
        ((fm_prepare_gradient_func model_func input_shape).fetches.getD i default).mask_shape
          = (fm_prepare_gradient_func model_func input_shape).output_shapes.getD
              i default) := by
  constructor
  · intro g iname onames res i s h hi hs
    obtain ⟨-, hb, hout⟩ := tf_prepare_ok g iname onames res h
    obtain ⟨hlen, hidx⟩ := build_fetches_ok g onames res.fetches hb
    obtain ⟨s0, hs0, hgi⟩ := hidx i hi
    rw [hs] at hs0
    have hss : s0 = s := by injection hs0 with h0; exact h0.symm
    subst hss
    have hof : res.output_shapes.getD i default = (res.fetches.getD i default).mask_shape := by
      rw [hout, getD_map_lt _ _ i (by rw [hlen]; exact hi)]
    refine ⟨?_, ?_, hof.symm⟩
    · rw [hof, hgi]
    · rw [hgi]
  · intro model ish i hi
    have hflen : i < (fm_build_fetches (model ⟨1, ish.h, ish.w, ish.c⟩)).length := by
      rw [fm_build_fetches_length]; exact hi
    have hof : (fm_prepare_gradient_func model ish).output_shapes.getD i default
        = ((fm_prepare_gradient_func model ish).fetches.getD i default).mask_shape := by
      show ((fm_build_fetches (model ⟨1, ish.h, ish.w, ish.c⟩)).map _).getD i default = _
      rw [getD_map_lt _ _ i hflen]
      rfl
    refine ⟨?_, hof.symm⟩
    rw [hof]
    show ((fm_build_fetches (model ⟨1, ish.h, ish.w, ish.c⟩)).getD i default).mask_shape = _
    rw [fm_build_fetches_getD _ i hi]

/-- C7 witness: the shape-forcing statement evaluated on `graph_ok` at
output index 0 (`"fm_a"`, static shape `(1, 2, 2, 8)`) and on a concrete
feature-maps model with an output of channel width 8. -/
theorem C7_output_shape_forced_witness :
    (res_ok2.output_shapes.getD 0 default = ⟨1, 2, 2, 1⟩ ∧
      (res_ok2.fetches.getD 0 default).mask_shape = ⟨1, 2, 2, 1⟩ ∧
      (res_ok2.fetches.getD 0 default).mask_shape = res_ok2.output_shapes.getD 0 default) ∧
    ((fm_prepare_gradient_func (fun _ => [⟨1, 3, 5, 8⟩]) ⟨4, 4, 3⟩).output_shapes.getD
        0 default = ⟨1, 3, 5, 1⟩ ∧
      ((fm_prepare_gradient_func (fun _ => [⟨1, 3, 5, 8⟩]) ⟨4, 4, 3⟩).fetches.getD
          0 default).mask_shape
        = (fm_prepare_gradient_func (fun _ => [⟨1, 3, 5, 8⟩]) ⟨4, 4, 3⟩).output_shapes.getD
            0 default) :=
  ⟨C7_output_shape_forced.1 graph_ok "input" ["fm_a", "fm_b"] res_ok2 0 ⟨1, 2, 2, 8⟩
      rfl (by decide) rfl,
   C7_output_shape_forced.2 (fun _ => [⟨1, 3, 5, 8⟩]) ⟨4, 4, 3⟩ 0 (by decide)⟩

/-- C6: on every `_prepare_gradient_func` call, a previously held live
session is closed before the new session is created
(`prepare_lifecycle = open_new ∘ close_prev`, with the old session closed
and nothing live in between), and at every moment the instance owns at most
one live execution resource. -/
theorem C6_one_live_session (st : LifecycleState) (hwf : LifecycleWF st) :
    prepare_lifecycle st = open_new (close_prev st) ∧
    (∀ s, st.session = some s → s ∈ (close_prev st).closed) ∧
    live_sessions (close_prev st) = [] ∧
    live_sessions (prepare_lifecycle st) = [st.next_id] ∧
    LifecycleWF (prepare_lifecycle st) ∧
    (∀ x y, x ∈ live_sessions (prepare_lifecycle st) →
      y ∈ live_sessions (prepare_lifecycle st) → x = y) := by
  refine ⟨rfl, ?_, live_close_prev_nil st hwf, live_prepare st hwf, prepare_wf st hwf, ?_⟩
  · intro s hs
    unfold close_prev
    rw [hs]
    exact List.mem_cons_self _ _
  · intro x y hx hy
    rw [live_prepare st hwf] at hx hy
    simp only [List.mem_singleton] at hx hy
    rw [hx, hy]

/-- C6 witness: the lifecycle statement evaluated on the state reached by
one `_prepare_gradient_func` call on a fresh instance: its held session `0`
is closed by the next call, and exactly one session is live afterwards. -/
theorem C6_one_live_session_witness :
    live_sessions (close_prev (prepare_lifecycle initial_lifecycle)) = [] ∧
    live_sessions (prepare_lifecycle (prepare_lifecycle initial_lifecycle))
      = [(prepare_lifecycle initial_lifecycle).next_id] ∧
    LifecycleWF (prepare_lifecycle (prepare_lifecycle initial_lifecycle)) := by
  have hwf : LifecycleWF (prepare_lifecycle initial_lifecycle) := by
    refine ⟨?_, ?_, ?_, ?_⟩ <;>
      simp [prepare_lifecycle, close_prev, open_new, initial_lifecycle, live_sessions]
  obtain ⟨-, -, h3, h4, h5, -⟩ :=
    C6_one_live_session (prepare_lifecycle initial_lifecycle) hwf
  exact ⟨h3, h4, h5⟩

/-- C10: after a second `_prepare_gradient_func` call on the same instance,
the session created by the first call is closed, and it never becomes live
again however many further prepare calls follow, so the gradient closure
bound to it can no longer run. -/
theorem C10_stale_gradient_fn (st : LifecycleState) (s1 : Nat)
    (h1 : (prepare_lifecycle st).session = some s1) :
    s1 ∈ (prepare_lifecycle (prepare_lifecycle st)).closed ∧
    (∀ k, ¬ s1 ∈ live_sessions
        (prepare_lifecycle^[k] (prepare_lifecycle (prepare_lifecycle st)))) ∧
    (∀ k, can_run
        (prepare_lifecycle^[k] (prepare_lifecycle (prepare_lifecycle st))) s1 = false) := by
  have hs1 : s1 ∈ (prepare_lifecycle (prepare_lifecycle st)).closed := by
    show s1 ∈ (close_prev (prepare_lifecycle st)).closed
    unfold close_prev
    rw [h1]
    exact List.mem_cons_self _ _
  have hclosed : ∀ k, s1 ∈
      (prepare_lifecycle^[k] (prepare_lifecycle (prepare_lifecycle st))).closed :=
    fun k => closed_iterate_subset _ k s1 hs1
  refine ⟨hs1, ?_, ?_⟩
  · intro k hmem
    rw [live_sessions, List.mem_filter] at hmem
    obtain ⟨-, hdec⟩ := hmem
    simp only [decide_eq_true_eq] at hdec
    exact hdec (hclosed k)
  · intro k
    have := hclosed k
    simp [can_run, this]

/-- C10 witness: on a fresh instance, the session `0` created by the first
prepare call is closed by the second and cannot be used after two further
calls. -/
theorem C10_stale_gradient_fn_witness :
    0 ∈ (prepare_lifecycle (prepare_lifecycle initial_lifecycle)).closed ∧
    ¬ 0 ∈ live_sessions
        (prepare_lifecycle^[2] (prepare_lifecycle (prepare_lifecycle initial_lifecycle))) ∧
    can_run (prepare_lifecycle^[2] (prepare_lifecycle (prepare_lifecycle initial_lifecycle)))
        0 = false := by
  obtain ⟨h1, h2, h3⟩ := C10_stale_gradient_fn initial_lifecycle 0 rfl
  exact ⟨h1, h2 2, h3 2⟩

end ReceptiveFieldTF
